import Mathlib

/-!
Verification development for the keras-tuner instance lifecycle engine
(`kerastuner/engine/tuner.py`): fingerprinting, the `new_instance`
generation loop, instance reload, best-model retrieval and the `search`
entry point, shallowly embedded in Lean.
-/

set_option autoImplicit false
set_option maxRecDepth 100000

namespace KerasTuner

/-! ## SHA-256 over byte lists (embedding of Python `hashlib.sha256`)

Machine words are `Nat` reduced modulo `2 ^ 32`; messages are lists of
byte values (`Nat < 256`).  This mirrors the standard SHA-256 algorithm
executed by `hashlib.sha256(...).hexdigest()` in the source.
-/

/-- Reduce modulo `2 ^ 32` (32-bit word arithmetic). -/
def m32 (x : Nat) : Nat := x % 4294967296

/-- Right rotation of a 32-bit word by `n` places. -/
def rotr (n x : Nat) : Nat := x / 2 ^ n + x % 2 ^ n * 2 ^ (32 - n)

/-- Bitwise complement on 32 bits. -/
def not32 (x : Nat) : Nat := x ^^^ 4294967295

def bsig0 (x : Nat) : Nat := rotr 2 x ^^^ rotr 13 x ^^^ rotr 22 x
def bsig1 (x : Nat) : Nat := rotr 6 x ^^^ rotr 11 x ^^^ rotr 25 x
def ssig0 (x : Nat) : Nat := rotr 7 x ^^^ rotr 18 x ^^^ (x >>> 3)
def ssig1 (x : Nat) : Nat := rotr 17 x ^^^ rotr 19 x ^^^ (x >>> 10)
def chFn (e f g : Nat) : Nat := (e &&& f) ^^^ (not32 e &&& g)
def majFn (a b c : Nat) : Nat := (a &&& b) ^^^ (a &&& c) ^^^ (b &&& c)

/-- The 64 SHA-256 round constants. -/
def sha256K : List Nat :=
  [1116352408, 1899447441, 3049323471, 3921009573,
   961987163, 1508970993, 2453635748, 2870763221,
   3624381080, 310598401, 607225278, 1426881987,
   1925078388, 2162078206, 2614888103, 3248222580,
   3835390401, 4022224774, 264347078, 604807628,
   770255983, 1249150122, 1555081692, 1996064986,
   2554220882, 2821834349, 2952996808, 3210313671,
   3336571891, 3584528711, 113926993, 338241895,
   666307205, 773529912, 1294757372, 1396182291,
   1695183700, 1986661051, 2177026350, 2456956037,
   2730485921, 2820302411, 3259730800, 3345764771,
   3516065817, 3600352804, 4094571909, 275423344,
   430227734, 506948616, 659060556, 883997877,
   958139571, 1322822218, 1537002063, 1747873779,
   1955562222, 2024104815, 2227730452, 2361852424,
   2428436474, 2756734187, 3204031479, 3329325298]

/-- State of the SHA-256 compression function: eight 32-bit words. -/
structure Sha256State where
  a : Nat
  b : Nat
  c : Nat
  d : Nat
  e : Nat
  f : Nat
  g : Nat
  h : Nat
deriving DecidableEq

/-- The SHA-256 initial hash value. -/
def sha256H0 : Sha256State :=
  ⟨1779033703, 3144134277, 1013904242, 2773480762,
   1359893119, 2600822924, 528734635, 1541459225⟩

/-- The `n` big-endian bytes of `x`. -/
def bigEndianBytes (n x : Nat) : List Nat :=
  (List.range n).map (fun i => x / 2 ^ (8 * (n - 1 - i)) % 256)

/-- SHA-256 padding: append `128`, zero bytes up to 56 mod 64, then the
bit length as 8 big-endian bytes. -/
def sha256Pad (msg : List Nat) : List Nat :=
  let l := msg.length
  let k := (119 - l % 64) % 64
  msg ++ [128] ++ List.replicate k 0 ++ bigEndianBytes 8 (l * 8)

/-- Split a (padded) message into its 64-byte blocks. -/
def sha256Blocks (l : List Nat) : List (List Nat) :=
  (List.range (l.length / 64)).map (fun i => ((l.drop (64 * i)).take 64))

/-- The 16 initial 32-bit words of a 64-byte block, big-endian. -/
def blockWords (block : List Nat) : List Nat :=
  (List.range 16).map (fun i =>
    block.getD (4 * i) 0 * 16777216 + block.getD (4 * i + 1) 0 * 65536 +
    block.getD (4 * i + 2) 0 * 256 + block.getD (4 * i + 3) 0)

/-- Extend the 16 block words to the 64-entry message schedule. -/
def sha256Schedule (block : List Nat) : List Nat :=
  (List.range 48).foldl
    (fun ws _ =>
      let n := ws.length
      ws ++ [m32 (ssig1 (ws.getD (n - 2) 0) + ws.getD (n - 7) 0 +
                  ssig0 (ws.getD (n - 15) 0) + ws.getD (n - 16) 0)])
    (blockWords block)

/-- One round of the SHA-256 compression function. -/
def sha256Round (st : Sha256State) (wk : Nat × Nat) : Sha256State :=
  let t1 := m32 (st.h + bsig1 st.e + chFn st.e st.f st.g + wk.2 + wk.1)
  let t2 := m32 (bsig0 st.a + majFn st.a st.b st.c)
  ⟨m32 (t1 + t2), st.a, st.b, st.c, m32 (st.d + t1), st.e, st.f, st.g⟩

/-- Process one 64-byte block. -/
def sha256Compress (h0 : Sha256State) (block : List Nat) : Sha256State :=
  let st := ((sha256Schedule block).zip sha256K).foldl sha256Round h0
  ⟨m32 (h0.a + st.a), m32 (h0.b + st.b), m32 (h0.c + st.c), m32 (h0.d + st.d),
   m32 (h0.e + st.e), m32 (h0.f + st.f), m32 (h0.g + st.g), m32 (h0.h + st.h)⟩

/-- SHA-256 of a byte list. -/
def sha256 (msg : List Nat) : Sha256State :=
  (sha256Blocks (sha256Pad msg)).foldl sha256Compress sha256H0

/-- Lower-case hexadecimal digit for `d < 16`. -/
def hexDigitChar (d : Nat) : Char :=
  "0123456789abcdef".data.getD d (Char.ofNat 48)

/-- The `n`-character big-endian lower-case hex rendering of a word. -/
def toHexPad (n x : Nat) : List Char :=
  (List.range n).map (fun i => hexDigitChar (x / 16 ^ (n - 1 - i) % 16))

/-- Hex digest characters of a SHA-256 state (64 hex characters), as
produced by Python `hexdigest()`. -/
def sha256HexChars (st : Sha256State) : List Char :=
  toHexPad 8 st.a ++ toHexPad 8 st.b ++ toHexPad 8 st.c ++ toHexPad 8 st.d ++
  toHexPad 8 st.e ++ toHexPad 8 st.f ++ toHexPad 8 st.g ++ toHexPad 8 st.h

/-! ## UTF-8 encoding (embedding of Python `str.encode` with codec utf-8) -/

/-- UTF-8 bytes of one Unicode code point. -/
def utf8EncodeChar (c : Char) : List Nat :=
  let n := c.toNat
  if n < 128 then [n]
  else if n < 2048 then
    [192 ||| (n >>> 6), 128 ||| (n &&& 63)]
  else if n < 65536 then
    [224 ||| (n >>> 12), 128 ||| ((n >>> 6) &&& 63), 128 ||| (n &&& 63)]
  else
    [240 ||| (n >>> 18), 128 ||| ((n >>> 12) &&& 63),
     128 ||| ((n >>> 6) &&& 63), 128 ||| (n &&& 63)]

/-- UTF-8 encoding of a string as a byte list. -/
def utf8Encode (s : String) : List Nat :=
  s.data.flatMap utf8EncodeChar

/-- Full hex digest of the SHA-256 of the UTF-8 encoding of a string:
the embedding of `hashlib.sha256(s.encode(utf-8)).hexdigest()`. -/
def sha256HexOfString (s : String) : List Char :=
  sha256HexChars (sha256 (utf8Encode s))

/-! ## Data model

Shallow embedding of the tuner data model.  Serialized configurations
(`str(model.get_config())`, `str(model.optimizer.get_config())`,
`str(model.loss)` and friends) are represented by the resulting strings;
metric observations are represented by integers so that the objective
order is decidable.
-/

/-- The tuner objective: a metric name together with its optimization
direction (`maximize = true` for maximize-type objectives such as
accuracy, `false` for minimize-type objectives such as loss). -/
structure Objective where
  name : String
  maximize : Bool
deriving DecidableEq

/-- A Keras model artifact as seen by `tuner.py`: its serialized
architecture config, optional serialized optimizer config, loss
description, parameter count (`tf_utils.compute_model_size`, the external
capability returning the parameter count), optional weights reference and
compilation flag. -/
structure Model where
  config : String
  optimizer : Option String
  loss : String
  metrics_config : String := ""
  num_params : Nat := 0
  weights_filename : Option String := none
  compiled : Bool := false
deriving DecidableEq

/-- One recorded training run of an instance: its identifier and its
per-metric recorded values (last observation per named metric). -/
structure ExecutionState where
  idx : String
  metrics : List (String × Int)
deriving DecidableEq

/-- Persisted state of one unique model configuration
(`kerastuner.states.InstanceState`): fingerprint `idx`, serialized
configs, hyperparameters, objective and the execution collection in
insertion order. -/
structure InstanceState where
  idx : String
  model_config : String
  loss_config : String
  optimizer_config : Option String
  metrics_config : String
  objective : Objective
  hyper_parameters : List (String × String)
  execution_states_collection : List ExecutionState
deriving DecidableEq

/-- A live instance as returned by `new_instance` / `reload_instance`:
the fingerprint, the wrapped model, its hyperparameters and its
`InstanceState`. -/
structure Instance where
  idx : String
  model : Model
  hyper_parameters : List (String × String)
  state : InstanceState
deriving DecidableEq

/-- The `TunerStats` counters of `self.stats`. -/
structure Stats where
  generated_instances : Nat
  invalid_instances : Nat
  collisions : Nat
  over_sized_models : Nat
deriving DecidableEq

/-- The fragment of `TunerState` (`self.state`) used by the embedded
operations. -/
structure TunerState where
  project : String
  architecture : String
  objective : Objective
  max_model_parameters : Nat
deriving DecidableEq

/-- The tuner: its state, stats and instance-state collection.  The
collection (`kerastuner.collections.InstanceStatesCollection`, not part
of the analysed sources) is modelled from the spec as an
insertion-ordered mapping from idx to `InstanceState`. -/
structure Tuner where
  state : TunerState
  stats : Stats
  instance_states : List (String × InstanceState)
deriving DecidableEq

/-- The value of `self.max_fail_streak`, set to 5 at tuner construction. -/
def maxFailStreak : Nat := 5

/-! ## Collections

Modelled from the spec: `InstanceStatesCollection` and
`ExecutionStatesCollection` live in `kerastuner.collections`, which is
not among the analysed sources.  The spec describes them as
insertion-ordered mappings supporting existence checks, insertion,
retrieval and objective-based ranking.
-/

/-- Modelled from the spec: `InstanceStatesCollection.exist(idx)` —
existence check in the idx-keyed mapping. -/
def existIdx (col : List (String × InstanceState)) (idx : String) : Bool :=
  col.any (fun p => p.1 == idx)

/-- Modelled from the spec: `InstanceStatesCollection.add(idx, state)` —
insertion at the end of the insertion-ordered mapping. -/
def addIdx (col : List (String × InstanceState)) (idx : String)
    (st : InstanceState) : List (String × InstanceState) :=
  col ++ [(idx, st)]

/-- Modelled from the spec: `InstanceStatesCollection.get(idx)` —
retrieval by idx, `none` when absent. -/
def getIdx (col : List (String × InstanceState)) (idx : String) :
    Option InstanceState :=
  (col.find? (fun p => p.1 == idx)).map (fun p => p.2)

/-- Stable insertion of `x` into `l`: `x` is placed before the first
element `y` with `le y x = false`, so ties keep their original order. -/
def insertLe {α : Type} (le : α → α → Bool) (x : α) : List α → List α
  | [] => [x]
  | y :: ys => if le x y then x :: y :: ys else y :: insertLe le x ys

/-- Stable insertion sort by the total preorder `le` (`le a b = true`
when `a` may come no later than `b`). -/
def sortLe {α : Type} (le : α → α → Bool) : List α → List α
  | [] => []
  | x :: xs => insertLe le x (sortLe le xs)

/-- Order on optional metric values induced by an objective direction:
for maximize-type objectives larger values come first, for minimize-type
smaller values come first; a missing value orders last. -/
def valLe (maximize : Bool) : Option Int → Option Int → Bool
  | some a, some b => if maximize then decide (b ≤ a) else decide (a ≤ b)
  | some _, none => true
  | none, some _ => false
  | none, none => true

/-- The recorded value of the named metric on an execution. -/
def metricValue (name : String) (e : ExecutionState) : Option Int :=
  (e.metrics.find? (fun p => p.1 == name)).map (fun p => p.2)

/-- Modelled from the spec:
`ExecutionStatesCollection.sort_by_metric(objective)` — executions
sorted best-first by the objective metric in the objective direction,
stable on ties. -/
def sortByMetric (obj : Objective) (es : List ExecutionState) :
    List ExecutionState :=
  sortLe (fun e1 e2 => valLe obj.maximize (metricValue obj.name e1)
    (metricValue obj.name e2)) es

/-- Modelled from the spec:
`ExecutionStatesCollection.get_last()` — the most recently added
execution. -/
def getLastExecution (es : List ExecutionState) : Option ExecutionState :=
  es.getLast?

/-- Modelled from the spec: `ExecutionStatesCollection.get(idx)` —
retrieval of an execution by identifier, `none` when absent. -/
def getExecution (es : List ExecutionState) (idx : String) :
    Option ExecutionState :=
  es.find? (fun e => e.idx == idx)

/-- The ranking value of an instance: the objective value of its best
execution (per the "best" rule of the reload selector). -/
def instanceObjectiveValue (obj : Objective) (ist : InstanceState) :
    Option Int :=
  match sortByMetric obj ist.execution_states_collection with
  | [] => none
  | e :: _ => metricValue obj.name e

/-- Modelled from the spec:
`InstanceStatesCollection.sort_by_objective()` — instances ranked by
their best execution value for the tuner objective, in the objective
direction, ties broken by insertion order (stable sort). -/
def sortByObjective (obj : Objective) (l : List InstanceState) :
    List InstanceState :=
  sortLe (fun i1 i2 => valLe obj.maximize (instanceObjectiveValue obj i1)
    (instanceObjectiveValue obj i2)) l

/-! ## Fingerprinter: `Tuner.__compute_model_id` -/

/-- Embedding of `Tuner.__compute_model_id`: concatenate
`str(model.get_config())`, then, when an optimizer is present,
`"optimizer:" + str(model.optimizer.get_config())`, then
`"loss:" + str(model.loss)`; SHA-256 the UTF-8 encoding and keep the
first 32 hex characters. -/
def Tuner.computeModelId (m : Model) : String :=
  let s := m.config
  let s := s ++ (match m.optimizer with
    | some oc => "optimizer:" ++ oc
    | none => "")
  let s := s ++ "loss:" ++ m.loss
  String.mk ((sha256HexOfString s).take 32)

/-! ## Errors

Python exception kinds distinguished by the embedded operations. -/

inductive PyError where
  /-- A raised `ValueError`, with its message. -/
  | valueError (msg : String)
  /-- A raised `LookupError` (or subclass), with its message. -/
  | lookupError (msg : String)
  /-- A raised `IndexError` from an out-of-range subscript. -/
  | indexError
deriving DecidableEq

/-- Whether a computation failed with a `LookupError`. -/
def isLookupError {α : Type} : Except PyError α → Bool
  | .error (.lookupError _) => true
  | _ => false

/-! ## Instance generation: `Tuner.new_instance`

`model_fn` is an external capability; one call of `new_instance` is run
against the finite trace of `model_fn` outcomes it consumes, one per
loop iteration (an exhausted trace ends the run with no instance).
-/

/-- One outcome of calling `model_fn()`: an exception, a falsy return, or
a model together with the hyperparameters the distribution provider
reports for it (`config._DISTRIBUTIONS.get_hyperparameters()`). -/
inductive BuildOutcome where
  | raiseExc
  | noModel
  | built (m : Model) (hp : List (String × String))
deriving DecidableEq

/-- Modelled from the spec: construction of the `InstanceState` recorded
for a freshly accepted instance (`Instance(...)` /
`kerastuner.states.InstanceState`, not among the analysed sources): it
captures idx, the model descriptors, the hyperparameters and the tuner
objective, with an initially empty execution collection. -/
def mkInstanceState (idx : String) (m : Model)
    (hp : List (String × String)) (obj : Objective) : InstanceState :=
  { idx := idx
    model_config := m.config
    loss_config := m.loss
    optimizer_config := m.optimizer
    metrics_config := m.metrics_config
    objective := obj
    hyper_parameters := hp
    execution_states_collection := [] }

/-- The generation loop of `new_instance` (`while 1:` body), one
recursive step per `model_fn` call.  `fail_streak`, `collision_streak`
and `over_sized_streak` are the local counters of the source; note that
the abort test of the failure branch reads the cumulative
`self.stats.invalid_instances`, not the local `fail_streak`. -/
def Tuner.newInstanceLoop (t : Tuner)
    (fail_streak collision_streak over_sized_streak : Nat) :
    List BuildOutcome → Option Instance × Tuner
  | [] => (none, t)
  | o :: rest =>
    let t := { t with stats :=
      { t.stats with generated_instances := t.stats.generated_instances + 1 } }
    let fail_streak := fail_streak + 1
    match o with
    | .raiseExc =>
      let t := { t with stats :=
        { t.stats with invalid_instances := t.stats.invalid_instances + 1 } }
      if t.stats.invalid_instances ≥ maxFailStreak then (none, t)
      else t.newInstanceLoop fail_streak collision_streak over_sized_streak rest
    | .noModel => (none, t)
    | .built m hp =>
      let idx := Tuner.computeModelId m
      if existIdx t.instance_states idx then
        let collision_streak := collision_streak + 1
        let t := { t with stats :=
          { t.stats with collisions := t.stats.collisions + 1 } }
        if collision_streak ≥ maxFailStreak then (none, t)
        else t.newInstanceLoop fail_streak collision_streak over_sized_streak
          rest
      else
        let nump := m.num_params
        if nump > t.state.max_model_parameters then
          let over_sized_streak := over_sized_streak + 1
          let t := { t with stats :=
            { t.stats with over_sized_models := t.stats.over_sized_models + 1 } }
          if over_sized_streak ≥ maxFailStreak then (none, t)
          else t.newInstanceLoop fail_streak collision_streak
            over_sized_streak rest
        else
          let istate := mkInstanceState idx m hp t.state.objective
          let inst : Instance := ⟨idx, m, hp, istate⟩
          (some inst,
           { t with instance_states := addIdx t.instance_states idx istate })

/-- Embedding of `Tuner.new_instance`, run against a trace of `model_fn`
outcomes. -/
def Tuner.newInstance (t : Tuner) (outcomes : List BuildOutcome) :
    Option Instance × Tuner :=
  t.newInstanceLoop 0 0 0 outcomes

/-- Modelled from the spec: the generation loop as described by spec
section 4.2, with VALIDATING_SIZE (step 3) performed before DEDUPING
(step 4).  Identical to `Tuner.newInstanceLoop` except that the size
check precedes the collision check; used to compare the spec-claimed
step order with the source order. -/
def Tuner.newInstanceLoopSizeFirst (t : Tuner)
    (fail_streak collision_streak over_sized_streak : Nat) :
    List BuildOutcome → Option Instance × Tuner
  | [] => (none, t)
  | o :: rest =>
    let t := { t with stats :=
      { t.stats with generated_instances := t.stats.generated_instances + 1 } }
    let fail_streak := fail_streak + 1
    match o with
    | .raiseExc =>
      let t := { t with stats :=
        { t.stats with invalid_instances := t.stats.invalid_instances + 1 } }
      if t.stats.invalid_instances ≥ maxFailStreak then (none, t)
      else t.newInstanceLoopSizeFirst fail_streak collision_streak
        over_sized_streak rest
    | .noModel => (none, t)
    | .built m hp =>
      let nump := m.num_params
      if nump > t.state.max_model_parameters then
        let over_sized_streak := over_sized_streak + 1
        let t := { t with stats :=
          { t.stats with over_sized_models := t.stats.over_sized_models + 1 } }
        if over_sized_streak ≥ maxFailStreak then (none, t)
        else t.newInstanceLoopSizeFirst fail_streak collision_streak
          over_sized_streak rest
      else
        let idx := Tuner.computeModelId m
        if existIdx t.instance_states idx then
          let collision_streak := collision_streak + 1
          let t := { t with stats :=
            { t.stats with collisions := t.stats.collisions + 1 } }
          if collision_streak ≥ maxFailStreak then (none, t)
          else t.newInstanceLoopSizeFirst fail_streak collision_streak
            over_sized_streak rest
        else
          let istate := mkInstanceState idx m hp t.state.objective
          let inst : Instance := ⟨idx, m, hp, istate⟩
          (some inst,
           { t with instance_states := addIdx t.instance_states idx istate })

/-- Modelled from the spec: `new_instance` as claimed, spec-ordered. -/
def Tuner.newInstanceSizeFirst (t : Tuner) (outcomes : List BuildOutcome) :
    Option Instance × Tuner :=
  t.newInstanceLoopSizeFirst 0 0 0 outcomes

/-- Modelled from the spec: the generation loop with the build-failure
abort condition of the claim — a per-call streak of consecutive build
failures, reset by any successful build, aborting generation when it
reaches `max_fail_streak` (glossary: a streak is the count of
consecutive same-kind failures since the last success).  Identical to
`Tuner.newInstanceLoop` otherwise. -/
def Tuner.newInstanceLoopStreak (t : Tuner)
    (consec_fail_streak collision_streak over_sized_streak : Nat) :
    List BuildOutcome → Option Instance × Tuner
  | [] => (none, t)
  | o :: rest =>
    let t := { t with stats :=
      { t.stats with generated_instances := t.stats.generated_instances + 1 } }
    match o with
    | .raiseExc =>
      let consec_fail_streak := consec_fail_streak + 1
      let t := { t with stats :=
        { t.stats with invalid_instances := t.stats.invalid_instances + 1 } }
      if consec_fail_streak ≥ maxFailStreak then (none, t)
      else t.newInstanceLoopStreak consec_fail_streak collision_streak
        over_sized_streak rest
    | .noModel => (none, t)
    | .built m hp =>
      let consec_fail_streak := 0
      let idx := Tuner.computeModelId m
      if existIdx t.instance_states idx then
        let collision_streak := collision_streak + 1
        let t := { t with stats :=
          { t.stats with collisions := t.stats.collisions + 1 } }
        if collision_streak ≥ maxFailStreak then (none, t)
        else t.newInstanceLoopStreak consec_fail_streak collision_streak
          over_sized_streak rest
      else
        let nump := m.num_params
        if nump > t.state.max_model_parameters then
          let over_sized_streak := over_sized_streak + 1
          let t := { t with stats :=
            { t.stats with over_sized_models := t.stats.over_sized_models + 1 } }
          if over_sized_streak ≥ maxFailStreak then (none, t)
          else t.newInstanceLoopStreak consec_fail_streak collision_streak
            over_sized_streak rest
        else
          let istate := mkInstanceState idx m hp t.state.objective
          let inst : Instance := ⟨idx, m, hp, istate⟩
          (some inst,
           { t with instance_states := addIdx t.instance_states idx istate })

/-- Modelled from the spec: `new_instance` with the per-call
consecutive-failure-streak abort condition of the claim. -/
def Tuner.newInstanceStreak (t : Tuner) (outcomes : List BuildOutcome) :
    Option Instance × Tuner :=
  t.newInstanceLoopStreak 0 0 0 outcomes

/-! ## Instance reload: `Tuner.reload_instance` -/

/-- An apostrophe character, used verbatim in the source error message. -/
def quoteChar : String := String.singleton (Char.ofNat 39)

/-- Modelled from the spec: `get_weights_filename(state, instance_state,
execution_state)` (`kerastuner.abstractions.io`, not among the analysed
sources) — the deterministic weights path derived from project,
architecture, instance idx and execution idx.  A missing execution
renders as the Python string form of `None`. -/
def getWeightsFilename (ts : TunerState) (ist : InstanceState)
    (est : Option ExecutionState) : String :=
  ts.project ++ "-" ++ ts.architecture ++ "-" ++ ist.idx ++ "-" ++
    (match est with
     | some e => e.idx
     | none => "None") ++ ".h5"

/-- Modelled from the spec: `InstanceState.model_from_configs(...)`
(`kerastuner.states`, not among the analysed sources) — reconstruction
of a compiled model artifact from the persisted architecture, loss,
optimizer and metrics configs plus a weights file.  The parameter count
is not part of the persisted configs and is not used on this path. -/
def modelFromConfigs (model_config loss_config : String)
    (optimizer_config : Option String) (metrics_config : String)
    (weights_filename : String) : Model :=
  { config := model_config
    optimizer := optimizer_config
    loss := loss_config
    metrics_config := metrics_config
    num_params := 0
    weights_filename := some weights_filename
    compiled := true }

/-- Embedding of the execution-selection chain of `reload_instance`
(lines 228-237): `"last"` takes the most recently added execution,
`"best"` the head of the executions sorted by the tuner objective
(raising `IndexError` when there is none, as `to_list()[0]` does), any
other truthy selector looks up `executions.get(idx)` — note that the
source passes the instance `idx`, not the `execution` selector — and a
falsy selector leaves no execution selected. -/
def selectExecution (objective : Objective) (idx : String)
    (executions : List ExecutionState) (execution : Option String) :
    Except PyError (Option ExecutionState) :=
  if execution == some "last" then
    .ok (getLastExecution executions)
  else if execution == some "best" then
    match sortByMetric objective executions with
    | [] => .error .indexError
    | e :: _ => .ok (some e)
  else if execution ≠ none ∧ execution ≠ some "" then
    .ok (getExecution executions idx)
  else
    .ok none

/-- Embedding of `Tuner.reload_instance(idx, execution, metrics)`.  The
`metrics` argument is accepted and, as in the source body, unused. -/
def Tuner.reloadInstance (t : Tuner) (idx : String)
    (execution : Option String := some "last")
    (metrics : List String := []) : Except PyError Instance :=
  let _ := metrics
  match getIdx t.instance_states idx with
  | none =>
    .error (.valueError ("Attempted to reload unknown instance " ++
      quoteChar ++ idx ++ quoteChar ++ "."))
  | some instance_state => do
    let execution_state ← selectExecution t.state.objective idx
      instance_state.execution_states_collection execution
    let weights_filename := getWeightsFilename t.state instance_state
      execution_state
    let model := modelFromConfigs instance_state.model_config
      instance_state.loss_config instance_state.optimizer_config
      instance_state.metrics_config weights_filename
    .ok { idx := instance_state.idx
          model := model
          hyper_parameters := instance_state.hyper_parameters
          state := instance_state }

/-! ## Best-model retrieval: `Tuner.get_best_models` -/

/-- Modelled from the spec: `reload_model(state, instance_state,
execution_state, compile)` (`kerastuner.abstractions.io`, not among the
analysed sources) — reconstruction of the model of an instance/execution
pair from persisted state; materialization problems (such as a missing
weights file) are reported per item by the capability itself, so the
call is total. -/
def reloadModel (ts : TunerState) (ist : InstanceState)
    (est : ExecutionState) (compile : Bool) : Model :=
  let m := modelFromConfigs ist.model_config ist.loss_config
    ist.optimizer_config ist.metrics_config
    (getWeightsFilename ts ist (some est))
  { m with compiled := compile }

/-- The best-execution step of the `get_best_models` loop:
`instance_state.execution_states_collection.sort_by_metric(
instance_state.objective)` followed by subscript `[0]`, which raises
`IndexError` when the instance has no executions. -/
def bestExecutionState (ist : InstanceState) :
    Except PyError ExecutionState :=
  match sortByMetric ist.objective ist.execution_states_collection with
  | [] => .error .indexError
  | e :: _ => .ok e

/-- The first `for` loop of `get_best_models`: collect each instance's
best execution state in order, propagating the `IndexError` an
execution-less instance raises. -/
def bestExecutions : List InstanceState →
    Except PyError (List ExecutionState)
  | [] => .ok []
  | i :: is => do
    let e ← bestExecutionState i
    let es ← bestExecutions is
    .ok (e :: es)

/-- Embedding of `Tuner.get_best_models(num_models, compile)`: rank the
collection by objective, truncate when longer than `num_models`, pick
each kept instance's best execution, and reload each (instance,
execution) pair with `compile=True` regardless of the `compile`
argument. -/
def Tuner.getBestModels (t : Tuner) (num_models : Nat) (compile : Bool) :
    Except PyError
      (List InstanceState × List ExecutionState × List Model) :=
  let _ := compile
  let sorted := sortByObjective t.state.objective
    (t.instance_states.map (fun p => p.2))
  let sorted := if sorted.length > num_models
    then sorted.take num_models else sorted
  do
    let execution_states ← bestExecutions sorted
    let models := (sorted.zip execution_states).map
      (fun p => reloadModel t.state p.1 p.2 true)
    .ok (sorted, execution_states, models)

/-! ## Search entry point: `Tuner.search` -/

/-- A dynamically-typed Python value, as far as `search` needs one. -/
inductive PyVal where
  | pynone
  | int (i : Int)
  | str (s : String)
  | tuple (a b : PyVal)
  | arr (l : List Int)
deriving DecidableEq

/-- Whether `kwargs` holds the key. -/
def hasKey (k : String) (kwargs : List (String × PyVal)) : Bool :=
  kwargs.any (fun p => p.1 == k)

/-- Reading `kwargs[k]` (the callers below only read keys they know present;
an absent key reads as the Python `None`). -/
def getKey (k : String) (kwargs : List (String × PyVal)) : PyVal :=
  ((kwargs.find? (fun p => p.1 == k)).map (fun p => p.2)).getD .pynone

/-- Python `del kwargs[k]`. -/
def delKey (k : String) (kwargs : List (String × PyVal)) :
    List (String × PyVal) :=
  kwargs.filter (fun p => p.1 != k)

/-- Python `kwargs[k] = v` (replace or add the mapping). -/
def setKey (k : String) (v : PyVal) (kwargs : List (String × PyVal)) :
    List (String × PyVal) :=
  delKey k kwargs ++ [(k, v)]

/-- The arguments `search` hands to `self.tune(x, y,
validation_data=validation_data, **kwargs)`. -/
structure TuneCall where
  x : PyVal
  y : PyVal
  validation_data : Option PyVal
  kwargs : List (String × PyVal)
deriving DecidableEq

/-- Embedding of `Tuner.search(x, y, **kwargs)`.  `tts` is the external
`sklearn.model_selection.train_test_split` capability, mapping data and
a test-size value to the (train, test) pair.  The result is the
`TuneCall` delegated to `tune` (an error means `tune` was never
reached). -/
def Tuner.search (tts : PyVal → PyVal → PyVal × PyVal) (x y : PyVal)
    (kwargs : List (String × PyVal)) : Except PyError TuneCall :=
  let kwargs := setKey "verbose" (.int 0) kwargs
  if hasKey "validation_split" kwargs && hasKey "validation_data" kwargs then
    .error (.valueError
      "Specify validation_data= or validation_split=, but not both.")
  else if hasKey "validation_split" kwargs &&
      !hasKey "validation_data" kwargs then
    let val_split := getKey "validation_split" kwargs
    let xs := tts x val_split
    let ys := if y ≠ PyVal.pynone then tts y val_split
      else (PyVal.pynone, PyVal.pynone)
    let validation_data := PyVal.tuple xs.2 ys.2
    let kwargs := delKey "validation_split" kwargs
    .ok ⟨xs.1, ys.1, some validation_data, kwargs⟩
  else if hasKey "validation_data" kwargs then
    let validation_data := getKey "validation_data" kwargs
    let kwargs := delKey "validation_data" kwargs
    .ok ⟨x, y, some validation_data, kwargs⟩
  else
    .ok ⟨x, y, none, kwargs⟩

/-! ## Concrete fixtures used by counterexamples and witnesses -/

/-- A small model with an optimizer. -/
def mA : Model :=
  { config := "archA", optimizer := some "adamA", loss := "mse",
    num_params := 10 }

/-- A second small model, differing from `mA` in architecture. -/
def mB : Model :=
  { config := "archB", optimizer := some "adamA", loss := "mse",
    num_params := 10 }

/-- An oversized model (its parameter count exceeds the fixture bound
below). -/
def mOver : Model :=
  { config := "archOver", optimizer := some "adamA", loss := "mse",
    num_params := 1000 }

/-- The fixture objective: maximize validation accuracy. -/
def accObjective : Objective := ⟨"val_accuracy", true⟩

/-- The fixture tuner state: bound of 100 parameters. -/
def tsFix : TunerState :=
  { project := "proj", architecture := "arch", objective := accObjective,
    max_model_parameters := 100 }

/-- A tuner with an empty collection and zeroed stats. -/
def tEmpty : Tuner :=
  { state := tsFix
    stats := ⟨0, 0, 0, 0⟩
    instance_states := [] }

/-- A tuner whose collection already holds the fingerprint of `mA`. -/
def tHasA : Tuner :=
  { tEmpty with instance_states :=
      [(Tuner.computeModelId mA,
        mkInstanceState (Tuner.computeModelId mA) mA [] accObjective)] }

/-- A tuner whose collection already holds the fingerprint of the
oversized model `mOver`. -/
def tHasOver : Tuner :=
  { tEmpty with instance_states :=
      [(Tuner.computeModelId mOver,
        mkInstanceState (Tuner.computeModelId mOver) mOver [] accObjective)] }

/-- Outcome trace for the C3 counterexample: four build failures, a
buildable duplicate of `mA`, a fifth failure, then a fresh buildable
model.  No five consecutive build failures occur in it. -/
def outcomesC3 : List BuildOutcome :=
  [.raiseExc, .raiseExc, .raiseExc, .raiseExc, .built mA [], .raiseExc,
   .built mB []]

/-- Outcome trace for the C4 counterexample: five copies of a model that
is both oversized and already in the collection. -/
def outcomesC4 : List BuildOutcome :=
  List.replicate 5 (.built mOver [])

/-- Length of the longest run of consecutive `raiseExc` outcomes. -/
def maxConsecRaises (l : List BuildOutcome) : Nat :=
  (l.foldl
    (fun p o => match o with
      | .raiseExc => (p.1 + 1, max p.2 (p.1 + 1))
      | _ => (0, p.2))
    ((0, 0) : Nat × Nat)).2

/-- Fixture executions: `e1` with accuracy 7, `e2` with accuracy 9. -/
def e1 : ExecutionState := ⟨"e1", [("val_accuracy", 7)]⟩
def e2 : ExecutionState := ⟨"e2", [("val_accuracy", 9)]⟩
def e3 : ExecutionState := ⟨"e3", [("val_accuracy", 5)]⟩

/-- A persisted instance with executions `e1`, `e2` (in that insertion
order). -/
def ist1 : InstanceState :=
  { idx := "i1", model_config := "archA", loss_config := "mse",
    optimizer_config := some "adamA", metrics_config := "",
    objective := accObjective, hyper_parameters := [],
    execution_states_collection := [e1, e2] }

/-- A second persisted instance with execution `e3`. -/
def ist2 : InstanceState :=
  { idx := "i2", model_config := "archB", loss_config := "mse",
    optimizer_config := some "adamA", metrics_config := "",
    objective := accObjective, hyper_parameters := [],
    execution_states_collection := [e3] }

/-- A tuner holding the two persisted instances above. -/
def tReload : Tuner :=
  { tEmpty with instance_states := [("i1", ist1), ("i2", ist2)] }

/-- A tuner that has already accumulated four invalid instances. -/
def tInv4 : Tuner := { tEmpty with stats := ⟨4, 4, 0, 0⟩ }

/-! ## Helper lemmas -/

theorem toHexPad_length (n x : Nat) : (toHexPad n x).length = n := by
  simp [toHexPad]

theorem sha256HexChars_length (st : Sha256State) :
    (sha256HexChars st).length = 64 := by
  simp [sha256HexChars, toHexPad_length]

theorem hexDigitChar_mem :
    ∀ d : Fin 16, hexDigitChar d.val ∈ "0123456789abcdef".data := by decide

theorem toHexPad_mem (n x : Nat) (c : Char) (hc : c ∈ toHexPad n x) :
    c ∈ "0123456789abcdef".data := by
  simp only [toHexPad, List.mem_map, List.mem_range] at hc
  obtain ⟨i, -, rfl⟩ := hc
  exact hexDigitChar_mem ⟨x / 16 ^ (n - 1 - i) % 16, Nat.mod_lt _ (by decide)⟩

theorem existIdx_eq_false_iff (col : List (String × InstanceState))
    (idx : String) : existIdx col idx = false ↔ idx ∉ col.map Prod.fst := by
  rw [← Bool.not_eq_true]
  simp [existIdx, List.any_eq_true, List.mem_map]

theorem newInstanceLoop_collection :
    ∀ (outcomes : List BuildOutcome) (t : Tuner) (fs cs os : Nat),
    (t.newInstanceLoop fs cs os outcomes).2.instance_states =
        t.instance_states ∨
      ∃ idx st,
        (t.newInstanceLoop fs cs os outcomes).2.instance_states =
            t.instance_states ++ [(idx, st)] ∧
          existIdx t.instance_states idx = false := by
  intro outcomes
  induction outcomes with
  | nil => intro t fs cs os; exact Or.inl rfl
  | cons o rest ih =>
    intro t fs cs os
    cases o with
    | raiseExc =>
      simp only [Tuner.newInstanceLoop]
      split
      · exact Or.inl rfl
      · exact ih _ _ _ _
    | noModel => exact Or.inl rfl
    | built m hp =>
      simp only [Tuner.newInstanceLoop]
      split
      · split
        · exact Or.inl rfl
        · exact ih _ _ _ _
      · next hexist =>
        split
        · split
          · exact Or.inl rfl
          · exact ih _ _ _ _
        · refine Or.inr ⟨Tuner.computeModelId m,
            mkInstanceState (Tuner.computeModelId m) m hp t.state.objective,
            rfl, ?_⟩
          simpa using hexist

theorem newInstanceLoop_collide :
    ∀ (outs rest : List BuildOutcome) (t : Tuner) (fs cs os : Nat),
    (∀ o ∈ outs, ∃ m hp, o = BuildOutcome.built m hp ∧
        existIdx t.instance_states (Tuner.computeModelId m) = true) →
    1 ≤ outs.length → maxFailStreak ≤ cs + outs.length →
    (t.newInstanceLoop fs cs os (outs ++ rest)).1 = none ∧
    (t.newInstanceLoop fs cs os (outs ++ rest)).2.instance_states =
      t.instance_states := by
  intro outs
  induction outs with
  | nil => intro rest t fs cs os hall h1; simp at h1
  | cons o outs' ih =>
    intro rest t fs cs os hall h1 hbound
    obtain ⟨m, hp, rfl, hexist⟩ := hall o (List.mem_cons_self _ _)
    simp only [List.cons_append, Tuner.newInstanceLoop, hexist, if_true]
    have hlen : (BuildOutcome.built m hp :: outs').length =
        outs'.length + 1 := List.length_cons _ _
    by_cases hc : cs + 1 ≥ maxFailStreak
    · rw [if_pos hc]
      exact ⟨rfl, rfl⟩
    · rw [if_neg hc]
      refine ih rest _ _ _ _ ?_ ?_ ?_
      · intro q hq
        exact hall q (List.mem_cons_of_mem _ hq)
      · rw [hlen] at hbound
        omega
      · rw [hlen] at hbound
        omega

theorem newInstanceLoop_raise :
    ∀ (j : Nat) (rest : List BuildOutcome) (t : Tuner) (fs cs os : Nat),
    1 ≤ j → maxFailStreak ≤ t.stats.invalid_instances + j →
    (t.newInstanceLoop fs cs os
        (List.replicate j .raiseExc ++ rest)).1 = none ∧
    maxFailStreak ≤ (t.newInstanceLoop fs cs os
        (List.replicate j .raiseExc ++ rest)).2.stats.invalid_instances := by
  intro j
  induction j with
  | zero => intro rest t fs cs os h1; omega
  | succ j ih =>
    intro rest t fs cs os h1 hbound
    simp only [List.replicate_succ, List.cons_append, Tuner.newInstanceLoop]
    by_cases hc : t.stats.invalid_instances + 1 ≥ maxFailStreak
    · rw [if_pos hc]
      exact ⟨rfl, hc⟩
    · rw [if_neg hc]
      refine ih rest _ _ _ _ (by omega) ?_
      show maxFailStreak ≤ t.stats.invalid_instances + 1 + j
      omega

theorem insertLe_length {α : Type} (le : α → α → Bool) (x : α)
    (l : List α) : (insertLe le x l).length = l.length + 1 := by
  induction l with
  | nil => rfl
  | cons y ys ih =>
    simp only [insertLe]
    split
    · simp
    · simp [ih]

theorem sortLe_length {α : Type} (le : α → α → Bool) (l : List α) :
    (sortLe le l).length = l.length := by
  induction l with
  | nil => rfl
  | cons x xs ih => simp [sortLe, insertLe_length, ih]

theorem mem_insertLe {α : Type} (le : α → α → Bool) (x y : α) :
    ∀ l : List α, y ∈ insertLe le x l → y = x ∨ y ∈ l := by
  intro l
  induction l with
  | nil => intro h; simpa [insertLe] using h
  | cons z zs ih =>
    intro h
    by_cases hc : le x z
    · rw [insertLe, if_pos hc] at h
      simpa using h
    · rw [insertLe, if_neg hc] at h
      simp only [List.mem_cons] at h ⊢
      rcases h with h | h
      · exact Or.inr (Or.inl h)
      · rcases ih h with h' | h'
        · exact Or.inl h'
        · exact Or.inr (Or.inr h')

theorem mem_sortLe {α : Type} (le : α → α → Bool) (x : α) :
    ∀ l : List α, x ∈ sortLe le l → x ∈ l := by
  intro l
  induction l with
  | nil => intro h; simp [sortLe] at h
  | cons y ys ih =>
    intro h
    rw [sortLe] at h
    rcases mem_insertLe le y x _ h with h' | h'
    · simp [h']
    · exact List.mem_cons_of_mem _ (ih h')

theorem sortByObjective_length (obj : Objective) (l : List InstanceState) :
    (sortByObjective obj l).length = l.length := sortLe_length _ _

theorem mem_sortByObjective (obj : Objective) (x : InstanceState)
    (l : List InstanceState) (h : x ∈ sortByObjective obj l) : x ∈ l :=
  mem_sortLe _ _ _ h

theorem bestExecutionState_ok (i : InstanceState)
    (h : i.execution_states_collection ≠ []) :
    ∃ e, bestExecutionState i = .ok e := by
  unfold bestExecutionState
  cases hsm : sortByMetric i.objective i.execution_states_collection with
  | nil =>
    exfalso
    apply h
    have := sortLe_length
      (fun e1 e2 => valLe i.objective.maximize
        (metricValue i.objective.name e1) (metricValue i.objective.name e2))
      i.execution_states_collection
    rw [show sortLe _ i.execution_states_collection =
      sortByMetric i.objective i.execution_states_collection from rfl,
      hsm] at this
    exact List.length_eq_zero.mp this.symm
  | cons e es => exact ⟨e, rfl⟩

theorem bestExecutions_ok (l : List InstanceState)
    (h : ∀ i ∈ l, i.execution_states_collection ≠ []) :
    ∃ ests, bestExecutions l = .ok ests ∧ ests.length = l.length ∧
      List.Forall₂ (fun i e => bestExecutionState i = .ok e) l ests := by
  induction l with
  | nil => exact ⟨[], rfl, rfl, List.Forall₂.nil⟩
  | cons i is ih =>
    obtain ⟨e, he⟩ := bestExecutionState_ok i (h i (List.mem_cons_self _ _))
    obtain ⟨ests, hests, hlen, hfa⟩ :=
      ih (fun j hj => h j (List.mem_cons_of_mem _ hj))
    refine ⟨e :: ests, ?_, by simp [hlen], List.Forall₂.cons he hfa⟩
    rw [bestExecutions, he, hests]
    rfl

theorem take_trunc {α : Type} (n : Nat) (l : List α) (h : n ≤ l.length) :
    (if l.length > n then l.take n else l) = l.take n := by
  split
  · rfl
  · rw [List.take_of_length_le (by omega)]

theorem any_filter_key_self (k : String) (l : List (String × PyVal)) :
    (l.filter (fun p => p.1 != k)).any (fun p => p.1 == k) = false := by
  induction l with
  | nil => rfl
  | cons p ps ih =>
    by_cases hp : p.1 = k
    · have hb : (p.1 != k) = false := by simp [hp]
      simp [List.filter_cons, hb, ih]
    · have hb : (p.1 != k) = true := by simp [hp]
      have hk : (p.1 == k) = false := beq_false_of_ne hp
      simp [List.filter_cons, hb, List.any_cons, hk, ih]

theorem any_filter_key_ne (k k' : String) (l : List (String × PyVal))
    (h : k ≠ k') :
    (l.filter (fun p => p.1 != k')).any (fun p => p.1 == k) =
      l.any (fun p => p.1 == k) := by
  induction l with
  | nil => rfl
  | cons p ps ih =>
    by_cases hp : p.1 = k'
    · have hb : (p.1 != k') = false := by simp [hp]
      have hk : (p.1 == k) = false := by
        subst hp
        exact beq_false_of_ne (fun he => h he.symm)
      simp [List.filter_cons, hb, List.any_cons, hk, ih]
    · have hb : (p.1 != k') = true := by simp [hp]
      simp [List.filter_cons, hb, List.any_cons, ih]

theorem hasKey_delKey_self (k : String) (l : List (String × PyVal)) :
    hasKey k (delKey k l) = false :=
  any_filter_key_self k l

theorem hasKey_delKey_ne (k k' : String) (l : List (String × PyVal))
    (h : k ≠ k') : hasKey k (delKey k' l) = hasKey k l :=
  any_filter_key_ne k k' l h

theorem hasKey_setKey_ne (k k' : String) (v : PyVal)
    (l : List (String × PyVal)) (h : k ≠ k') :
    hasKey k (setKey k' v l) = hasKey k l := by
  have hkk : (k' == k) = false := beq_false_of_ne (fun he => h he.symm)
  show (delKey k' l ++ [(k', v)]).any (fun p => p.1 == k) = hasKey k l
  rw [List.any_append]
  have h2 : [(k', v)].any (fun p => p.1 == k) = false := by
    simp [List.any_cons, hkk]
  rw [h2, Bool.or_false]
  exact hasKey_delKey_ne k k' l h

theorem sha256HexOfString_length (s : String) :
    (sha256HexOfString s).length = 64 := sha256HexChars_length _

theorem sha256HexOfString_take_mem (s : String) (c : Char)
    (hc : c ∈ (sha256HexOfString s).take 32) :
    c ∈ "0123456789abcdef".data := by
  have h1 : c ∈ sha256HexOfString s := List.take_subset _ _ hc
  simp only [sha256HexOfString, sha256HexChars, List.mem_append] at h1
  rcases h1 with ((((((h | h) | h) | h) | h) | h) | h) | h <;>
    exact toHexPad_mem _ _ _ h

theorem except_bind_ok {ε α β : Type} (x : Except ε α) (f : α → Except ε β)
    (v : β) (h : x >>= f = .ok v) : ∃ a, x = .ok a ∧ f a = .ok v := by
  cases x with
  | ok a => exact ⟨a, rfl, h⟩
  | error e =>
    exfalso
    simp only [Bind.bind, Except.bind] at h
    exact Except.noConfusion h

/-! ## Claim theorems -/

/-- Claim C1: `compute_id` concatenates the string form of the
architecture config, then (only when an optimizer is present) the prefix
`optimizer:` followed by the string form of the optimizer config, then
the prefix `loss:` followed by the string form of the loss, hashes the
UTF-8 encoding with SHA-256 and keeps the first 32 hex characters, so
the id is a 32-character hex string and any two models with identical
architecture, optimizer and loss serializations receive the same id. -/
theorem compute_id_spec (m : Model) :
    (Tuner.computeModelId m).length = 32 ∧
    (∀ c ∈ (Tuner.computeModelId m).data, c ∈ "0123456789abcdef".data) ∧
    (∀ m' : Model, m.config = m'.config → m.optimizer = m'.optimizer →
      m.loss = m'.loss → Tuner.computeModelId m = Tuner.computeModelId m') := by
  refine ⟨?_, ?_, ?_⟩
  · show ((sha256HexOfString _).take 32).length = 32
    rw [List.length_take, sha256HexOfString_length]
    rfl
  · intro c hc
    exact sha256HexOfString_take_mem _ c hc
  · intro m' h1 h2 h3
    simp only [Tuner.computeModelId]
    rw [h1, h2, h3]

/-- Witness for C1: two concrete models that differ only in parameter
count (architecture, optimizer and loss serializations equal) receive
the same id. -/
theorem compute_id_spec_witness :
    Tuner.computeModelId
        { config := "archA", optimizer := some "adamA", loss := "mse",
          num_params := 10 } =
      Tuner.computeModelId
        { config := "archA", optimizer := some "adamA", loss := "mse",
          num_params := 99 } :=
  (compute_id_spec _).2.2 _ rfl rfl rfl

/-- Claim C2: one `new_instance` call never registers a second
`InstanceState` under an idx already present: the collection either is
unchanged or gains exactly one entry whose idx was absent, and
distinctness of the registered idxs is preserved. -/
theorem new_instance_unique_idx (t : Tuner) (outcomes : List BuildOutcome)
    (h : (t.instance_states.map Prod.fst).Nodup) :
    (((t.newInstance outcomes).2.instance_states.map Prod.fst).Nodup) ∧
    ((t.newInstance outcomes).2.instance_states = t.instance_states ∨
      ∃ idx st, (t.newInstance outcomes).2.instance_states =
          t.instance_states ++ [(idx, st)] ∧
        existIdx t.instance_states idx = false) := by
  simp only [Tuner.newInstance]
  have hc := newInstanceLoop_collection outcomes t 0 0 0
  refine ⟨?_, hc⟩
  rcases hc with he | ⟨idx, st, he, hex⟩
  · rw [he]; exact h
  · rw [he, List.map_append]
    refine List.Nodup.append h (by simp) ?_
    intro a ha hb
    simp only [List.map_cons, List.map_nil, List.mem_singleton] at hb
    subst hb
    exact (existIdx_eq_false_iff _ _).mp hex ha

/-- Witness for C2: a fresh tuner accepting one built model keeps the
registered idxs distinct. -/
theorem new_instance_unique_idx_witness :
    ((tEmpty.newInstance
        [BuildOutcome.built mA []]).2.instance_states.map Prod.fst).Nodup :=
  (new_instance_unique_idx tEmpty [BuildOutcome.built mA []]
    (by exact List.nodup_nil)).1

/-- Claim C3 (amended): five consecutive build failures starting a
`new_instance` call make it return no instance with
`invalid_instances >= 5`; but the abort condition is the tuner-lifetime
cumulative `stats.invalid_instances` counter reaching `max_fail_streak`,
not a per-call consecutive-failure streak — a call whose very first
build raises aborts at once when the cumulative counter is already 4. -/
theorem new_instance_fail_abort (t : Tuner) (outcomes : List BuildOutcome) :
    (outcomes.take 5 = List.replicate 5 BuildOutcome.raiseExc →
      (t.newInstance outcomes).1 = none ∧
      5 ≤ (t.newInstance outcomes).2.stats.invalid_instances) ∧
    (4 ≤ t.stats.invalid_instances →
      ∀ rest, (t.newInstance (BuildOutcome.raiseExc :: rest)).1 = none) := by
  constructor
  · intro htake
    have hdecomp : outcomes =
        List.replicate 5 BuildOutcome.raiseExc ++ outcomes.drop 5 := by
      conv_lhs => rw [← List.take_append_drop 5 outcomes]
      rw [htake]
    have hr := newInstanceLoop_raise 5 (outcomes.drop 5) t 0 0 0 (by omega)
      (by simp only [maxFailStreak]; omega)
    rw [← hdecomp] at hr
    simp only [Tuner.newInstance]
    exact ⟨hr.1, by simpa only [maxFailStreak] using hr.2⟩
  · intro hinv rest
    simp only [Tuner.newInstance]
    have hr := newInstanceLoop_raise 1 rest t 0 0 0 (by omega)
      (by simp only [maxFailStreak]; omega)
    exact hr.1

/-- Witness for C3: a fresh tuner fed five straight build failures
returns no instance with the counter at 5; a tuner whose cumulative
counter is already 4 aborts after a single failure. -/
theorem new_instance_fail_abort_witness :
    (tEmpty.newInstance (List.replicate 5 BuildOutcome.raiseExc)).1 =
        none ∧
    5 ≤ (tEmpty.newInstance
        (List.replicate 5 BuildOutcome.raiseExc)).2.stats.invalid_instances ∧
    (tInv4.newInstance [BuildOutcome.raiseExc]).1 = none := by
  have h1 := (new_instance_fail_abort tEmpty
    (List.replicate 5 BuildOutcome.raiseExc)).1 rfl
  have h2 := (new_instance_fail_abort tInv4 []).2 (by decide) []
  exact ⟨h1.1, h1.2, h2⟩

/-- Counterexample for C3: on a trace whose longest run of consecutive
build failures is 4, the source loop still returns no instance (the
cumulative counter reaches 5), while the claimed per-call
consecutive-streak policy accepts a model. -/
theorem new_instance_fail_abort_counterexample :
    (tHasA.newInstance outcomesC3).1 = none ∧
    maxConsecRaises outcomesC3 = 4 ∧
    (tHasA.newInstanceStreak outcomesC3).1.isSome = true := by
  refine ⟨rfl, by decide, rfl⟩


/-- Claim C4 (amended): within the generation loop, for a successfully
built model the deduplication step comes first: a model whose
fingerprint is already registered takes the collision branch
(incrementing `collisions`, leaving `over_sized_models` untouched at
this step) even when it is oversized, and the size check runs only for
models whose fingerprint is fresh. -/
theorem new_instance_dedup_before_size (t : Tuner) (fs cs os : Nat)
    (m : Model) (hp : List (String × String)) (rest : List BuildOutcome) :
    (existIdx t.instance_states (Tuner.computeModelId m) = true →
      t.newInstanceLoop fs cs os (BuildOutcome.built m hp :: rest) =
        (if cs + 1 ≥ maxFailStreak then
          (none, { t with stats := { t.stats with
            generated_instances := t.stats.generated_instances + 1
            collisions := t.stats.collisions + 1 } })
        else
          ({ t with stats := { t.stats with
            generated_instances := t.stats.generated_instances + 1
            collisions := t.stats.collisions + 1 } } : Tuner).newInstanceLoop
            (fs + 1) (cs + 1) os rest)) ∧
    (existIdx t.instance_states (Tuner.computeModelId m) = false →
      m.num_params > t.state.max_model_parameters →
      t.newInstanceLoop fs cs os (BuildOutcome.built m hp :: rest) =
        (if os + 1 ≥ maxFailStreak then
          (none, { t with stats := { t.stats with
            generated_instances := t.stats.generated_instances + 1
            over_sized_models := t.stats.over_sized_models + 1 } })
        else
          ({ t with stats := { t.stats with
            generated_instances := t.stats.generated_instances + 1
            over_sized_models := t.stats.over_sized_models + 1 } } :
              Tuner).newInstanceLoop (fs + 1) cs (os + 1) rest)) := by
  constructor
  · intro hexist
    simp only [Tuner.newInstanceLoop]
    rw [if_pos hexist]
  · intro hexist hsize
    simp only [Tuner.newInstanceLoop]
    rw [if_neg (by simp [hexist]), if_pos hsize]

/-- Witness for C4: a model that is both oversized and a duplicate takes
the collision branch; a fresh oversized model takes the size branch. -/
theorem new_instance_dedup_before_size_witness :
    tHasOver.newInstanceLoop 0 4 0 [BuildOutcome.built mOver []] =
      (none, { tHasOver with stats := { tHasOver.stats with
        generated_instances := tHasOver.stats.generated_instances + 1
        collisions := tHasOver.stats.collisions + 1 } }) ∧
    tEmpty.newInstanceLoop 0 0 4 [BuildOutcome.built mOver []] =
      (none, { tEmpty with stats := { tEmpty.stats with
        generated_instances := tEmpty.stats.generated_instances + 1
        over_sized_models := tEmpty.stats.over_sized_models + 1 } }) := by
  constructor
  · rw [(new_instance_dedup_before_size tHasOver 0 4 0 mOver [] []).1 rfl]
    rfl
  · rw [(new_instance_dedup_before_size tEmpty 0 0 4 mOver [] []).2 rfl
      (by decide)]
    rfl

/-- Counterexample for C4: on five copies of a model that is both
oversized and already registered, the source loop increments only the
collision counter (the size check never runs), while the spec-ordered
size-first loop increments only the oversize counter. -/
theorem new_instance_order_counterexample :
    (tHasOver.newInstance outcomesC4).1 = none ∧
    (tHasOver.newInstance outcomesC4).2.stats.collisions = 5 ∧
    (tHasOver.newInstance outcomesC4).2.stats.over_sized_models = 0 ∧
    (tHasOver.newInstanceSizeFirst outcomesC4).2.stats.over_sized_models
        = 5 ∧
    (tHasOver.newInstanceSizeFirst outcomesC4).2.stats.collisions = 0 :=
  ⟨rfl, rfl, rfl, rfl, rfl⟩

/-- Claim C5: a `new_instance` call that runs into `max_fail_streak`
consecutive fingerprint collisions returns no instance, and the
instance collection is exactly as before the call. -/
theorem new_instance_collision_abort (t : Tuner)
    (ms : List (Model × List (String × String))) (rest : List BuildOutcome)
    (hlen : ms.length = maxFailStreak)
    (hcol : ∀ p ∈ ms,
      existIdx t.instance_states (Tuner.computeModelId p.1) = true) :
    (t.newInstance
        (ms.map (fun p => BuildOutcome.built p.1 p.2) ++ rest)).1 = none ∧
    (t.newInstance
        (ms.map (fun p => BuildOutcome.built p.1 p.2) ++
          rest)).2.instance_states = t.instance_states := by
  simp only [Tuner.newInstance]
  apply newInstanceLoop_collide
  · intro o ho
    simp only [List.mem_map] at ho
    obtain ⟨p, hp, rfl⟩ := ho
    exact ⟨p.1, p.2, rfl, hcol p hp⟩
  · rw [List.length_map, hlen]
    simp [maxFailStreak]
  · rw [List.length_map, hlen]
    omega

/-- Witness for C5: five consecutive rebuilds of the already-registered
model `mA` abort with no instance and leave the collection unchanged. -/
theorem new_instance_collision_abort_witness :
    (tHasA.newInstance
        (List.replicate 5 (BuildOutcome.built mA []))).1 = none ∧
    (tHasA.newInstance
        (List.replicate 5 (BuildOutcome.built mA []))).2.instance_states =
      tHasA.instance_states := by
  have h := new_instance_collision_abort tHasA
    (List.replicate 5 (mA, [])) [] rfl (by decide)
  exact ⟨h.1, h.2⟩

/-- Claim C6 (amended): reloading an unknown idx raises a `ValueError`
(not a `LookupError`) carrying the unknown idx, and never returns no
instance silently. -/
theorem reload_unknown_instance_value_error (t : Tuner) (idx : String)
    (execution : Option String) (metrics : List String)
    (h : getIdx t.instance_states idx = none) :
    t.reloadInstance idx execution metrics =
      .error (.valueError ("Attempted to reload unknown instance " ++
        quoteChar ++ idx ++ quoteChar ++ ".")) := by
  simp only [Tuner.reloadInstance, h]

/-- Witness for C6: reloading the unknown idx `nope` from an empty
collection raises the ValueError. -/
theorem reload_unknown_instance_value_error_witness :
    tEmpty.reloadInstance "nope" (some "last") [] =
      .error (.valueError ("Attempted to reload unknown instance " ++
        quoteChar ++ "nope" ++ quoteChar ++ ".")) :=
  reload_unknown_instance_value_error tEmpty "nope" (some "last") [] rfl

/-- Counterexample for C6: the failure on an unknown idx is not a
`LookupError` — the raised exception is a `ValueError`. -/
theorem reload_unknown_instance_counterexample :
    isLookupError (tEmpty.reloadInstance "nope" (some "last") []) =
        false ∧
    tEmpty.reloadInstance "nope" (some "last") [] =
      .error (.valueError ("Attempted to reload unknown instance " ++
        quoteChar ++ "nope" ++ quoteChar ++ ".")) :=
  ⟨rfl, rfl⟩

/-- Claim C7: on the instance `i1` with executions `e1`, `e2`, the
selector `last` picks the most recently added execution `e2` and
`best` picks the objective-optimal execution `e2`; but the explicit
selector `e1` picks no execution at all — the source looks up the
instance idx `i1` in the execution collection instead of the selector,
and no LookupError is raised — so the reloaded instance is built from
no selected execution. -/
theorem reload_selector_behavior :
    selectExecution accObjective "i1" [e1, e2] (some "last") =
        .ok (some e2) ∧
    selectExecution accObjective "i1" [e1, e2] (some "best") =
        .ok (some e2) ∧
    selectExecution accObjective "i1" [e1, e2] (some "e1") = .ok none ∧
    (tReload.reloadInstance "i1" (some "e1") []).map
        (fun i => i.model.weights_filename) =
      .ok (some (getWeightsFilename tsFix ist1 none)) :=
  ⟨rfl, rfl, rfl, rfl⟩


/-- Claim C8: with at least `n` registered instances (each with at least
one recorded execution), `get_best_models(n)` returns exactly `n`
(instance state, execution state, model) triples: the instance states
are the first `n` of the objective-ranked order, each execution state is
the best execution of its instance state, and each model is
reconstructed from that (instance, execution) pair. -/
theorem get_best_models_spec (t : Tuner) (n : Nat) (compile : Bool)
    (hn : n ≤ t.instance_states.length)
    (hexec : ∀ p ∈ t.instance_states,
      p.2.execution_states_collection ≠ []) :
    ∃ ests,
      t.getBestModels n compile = .ok
        ((sortByObjective t.state.objective
            (t.instance_states.map Prod.snd)).take n,
         ests,
         (((sortByObjective t.state.objective
             (t.instance_states.map Prod.snd)).take n).zip ests).map
           (fun p => reloadModel t.state p.1 p.2 true)) ∧
      ((sortByObjective t.state.objective
          (t.instance_states.map Prod.snd)).take n).length = n ∧
      ests.length = n ∧
      List.Forall₂ (fun i e => bestExecutionState i = .ok e)
        ((sortByObjective t.state.objective
          (t.instance_states.map Prod.snd)).take n) ests := by
  have hlenL : (sortByObjective t.state.objective
      (t.instance_states.map Prod.snd)).length =
      t.instance_states.length := by
    rw [sortByObjective_length, List.length_map]
  have hne : ∀ i ∈ (sortByObjective t.state.objective
      (t.instance_states.map Prod.snd)).take n,
      i.execution_states_collection ≠ [] := by
    intro i hi
    have h1 : i ∈ sortByObjective t.state.objective
        (t.instance_states.map Prod.snd) := List.take_subset _ _ hi
    have h2 : i ∈ t.instance_states.map Prod.snd :=
      mem_sortByObjective _ _ _ h1
    simp only [List.mem_map] at h2
    obtain ⟨p, hp, rfl⟩ := h2
    exact hexec p hp
  obtain ⟨ests, hok, hlen, hfa⟩ := bestExecutions_ok _ hne
  have htake : ((sortByObjective t.state.objective
      (t.instance_states.map Prod.snd)).take n).length = n := by
    rw [List.length_take, hlenL]
    omega
  refine ⟨ests, ?_, htake, by rw [hlen, htake], hfa⟩
  simp only [Tuner.getBestModels]
  rw [take_trunc n _ (by rw [hlenL]; exact hn), hok]
  rfl

/-- Witness for C8: the two-instance fixture collection yields exactly
two ranked triples. -/
theorem get_best_models_spec_witness :
    ∃ ests,
      tReload.getBestModels 2 false = .ok
        ((sortByObjective tReload.state.objective
            (tReload.instance_states.map Prod.snd)).take 2,
         ests,
         (((sortByObjective tReload.state.objective
             (tReload.instance_states.map Prod.snd)).take 2).zip ests).map
           (fun p => reloadModel tReload.state p.1 p.2 true)) ∧
      ((sortByObjective tReload.state.objective
          (tReload.instance_states.map Prod.snd)).take 2).length = 2 ∧
      ests.length = 2 ∧
      List.Forall₂ (fun i e => bestExecutionState i = .ok e)
        ((sortByObjective tReload.state.objective
          (tReload.instance_states.map Prod.snd)).take 2) ests :=
  get_best_models_spec tReload 2 false (by decide) (by decide)

/-- Claim C9: `search` raises a `ValueError` (before any tuning work)
when the keyword arguments hold both `validation_split` and
`validation_data`, and when exactly one of the two is present it removes
that key from the keyword arguments handed to `tune`. -/
theorem search_validation_spec (tts : PyVal → PyVal → PyVal × PyVal)
    (x y : PyVal) (kwargs : List (String × PyVal)) :
    (hasKey "validation_split" kwargs = true →
      hasKey "validation_data" kwargs = true →
      Tuner.search tts x y kwargs = .error (.valueError
        "Specify validation_data= or validation_split=, but not both.")) ∧
    (hasKey "validation_split" kwargs = true →
      hasKey "validation_data" kwargs = false →
      ∃ call, Tuner.search tts x y kwargs = .ok call ∧
        hasKey "validation_split" call.kwargs = false) ∧
    (hasKey "validation_split" kwargs = false →
      hasKey "validation_data" kwargs = true →
      ∃ call, Tuner.search tts x y kwargs = .ok call ∧
        hasKey "validation_data" call.kwargs = false) := by
  have hvs : ("validation_split" : String) ≠ "verbose" := by decide
  have hvd : ("validation_data" : String) ≠ "verbose" := by decide
  refine ⟨?_, ?_, ?_⟩
  · intro h1 h2
    simp [Tuner.search,
      hasKey_setKey_ne "validation_split" "verbose" (PyVal.int 0) kwargs hvs,
      hasKey_setKey_ne "validation_data" "verbose" (PyVal.int 0) kwargs hvd,
      h1, h2]
  · intro h1 h2
    simp only [Tuner.search,
      hasKey_setKey_ne "validation_split" "verbose" (PyVal.int 0) kwargs hvs,
      hasKey_setKey_ne "validation_data" "verbose" (PyVal.int 0) kwargs hvd,
      h1, h2, Bool.true_and, Bool.and_false, Bool.and_true, Bool.not_false,
      Bool.false_and, if_false, if_true, Bool.false_eq_true, ite_false,
      ite_true]
    exact ⟨_, rfl, hasKey_delKey_self _ _⟩
  · intro h1 h2
    simp only [Tuner.search,
      hasKey_setKey_ne "validation_split" "verbose" (PyVal.int 0) kwargs hvs,
      hasKey_setKey_ne "validation_data" "verbose" (PyVal.int 0) kwargs hvd,
      h1, h2, Bool.true_and, Bool.and_false, Bool.and_true, Bool.not_false,
      Bool.false_and, if_false, if_true, Bool.false_eq_true, ite_false,
      ite_true]
    exact ⟨_, rfl, hasKey_delKey_self _ _⟩

/-- Witness for C9: concrete kwargs exercising the three cases. -/
theorem search_validation_spec_witness :
    Tuner.search (fun a _ => (a, a)) (PyVal.arr [1, 2]) PyVal.pynone
        [("validation_split", PyVal.int 1),
         ("validation_data", PyVal.int 2)] =
      .error (.valueError
        "Specify validation_data= or validation_split=, but not both.") ∧
    (∃ call, Tuner.search (fun a _ => (a, a)) (PyVal.arr [1, 2])
        PyVal.pynone [("validation_split", PyVal.int 1)] = .ok call ∧
      hasKey "validation_split" call.kwargs = false) ∧
    (∃ call, Tuner.search (fun a _ => (a, a)) (PyVal.arr [1, 2])
        PyVal.pynone [("validation_data", PyVal.int 2)] = .ok call ∧
      hasKey "validation_data" call.kwargs = false) :=
  ⟨(search_validation_spec _ _ _ _).1 rfl rfl,
   (search_validation_spec _ _ _ _).2.1 rfl rfl,
   (search_validation_spec _ _ _ _).2.2 rfl rfl⟩

/-- Claim C10: the `compile` parameter of `get_best_models` has no
effect on the result — the returned triples are identical for
`compile=False` and `compile=True` — because every model is reloaded
with compilation unconditionally enabled. -/
theorem get_best_models_compile_no_effect :
    (∀ (t : Tuner) (n : Nat) (c1 c2 : Bool),
      t.getBestModels n c1 = t.getBestModels n c2) ∧
    (∀ (t : Tuner) (n : Nat) (c : Bool) ists ests models,
      t.getBestModels n c = .ok (ists, ests, models) →
      ∀ m ∈ models, m.compiled = true) := by
  constructor
  · intro t n c1 c2
    rfl
  · intro t n c ists ests models h m hm
    simp only [Tuner.getBestModels] at h
    obtain ⟨ests2, hbe, hok⟩ := except_bind_ok _ _ _ h
    simp only [Except.ok.injEq, Prod.mk.injEq] at hok
    obtain ⟨h1, h2, h3⟩ := hok
    subst h1
    subst h2
    subst h3
    simp only [List.mem_map] at hm
    obtain ⟨p, hp, rfl⟩ := hm
    rfl

/-- Witness for C10: on the fixture collection the triples agree for
both compile flags and the reloaded models are compiled. -/
theorem get_best_models_compile_no_effect_witness :
    tReload.getBestModels 2 false = tReload.getBestModels 2 true ∧
    (reloadModel tsFix ist1 e2 true).compiled = true := by
  constructor
  · exact get_best_models_compile_no_effect.1 tReload 2 false true
  · refine get_best_models_compile_no_effect.2 tReload 2 false
      [ist1, ist2] [e2, e3]
      [reloadModel tsFix ist1 e2 true, reloadModel tsFix ist2 e3 true]
      rfl _ ?_
    exact List.mem_cons_self _ _

end KerasTuner
